import Mathlib

/-!
Verification of the consensus core of the distributed-sync-system repository:
a shallow embedding of the Raft-style node (`src/consensus/raft.py`,
`src/nodes/base_node.py`), the failure detector
(`src/communication/failure_detector.py`) and the message-dispatch logic of
the transport (`src/communication/message_passing.py`), together with proofs
and refutations of the specified properties.

Timestamps and timeouts (Python floats holding seconds) are modelled as
rationals; Python dicts are modelled as insertion-ordered association lists
with in-place value update, matching CPython dict semantics.  Network effects
are passed in explicitly: a vote round takes the per-peer RPC outcome as a
function into `Except` (an exception models a transport failure), and the
current wall-clock time is an explicit argument wherever the code calls
`time.time()`.
-/

namespace DistSync

/-- Association-list lookup: first binding wins, as in a Python dict. -/
def dict_get {β : Type} : List (String × β) → String → Option β
  | [], _ => none
  | (k1, v) :: rest, k => if k = k1 then some v else dict_get rest k

/-- Association-list update: replaces the value in place when the key is
present (keeping its position, as CPython dicts do), else appends. -/
def dict_set {β : Type} : List (String × β) → String → β → List (String × β)
  | [], k, v => [(k, v)]
  | (k1, v1) :: rest, k, v =>
    if k = k1 then (k, v) :: rest else (k1, v1) :: dict_set rest k v

/-- The node state of `RaftNode` (with the `BaseNode` fields it inherits):
identity, known peer ids (the keys of `self.peers`), the role string,
`current_term`, `voted_for`, `leader_id`, the randomized election timeout and
the last-heartbeat timestamp used by the election watchdog. -/
structure RaftState where
  node_id : String
  peers : List String
  state : String
  current_term : Nat
  voted_for : Option String
  leader_id : Option String
  election_timeout_sec : ℚ
  last_heartbeat_ts : ℚ
deriving DecidableEq

/-- Wire payload of a `vote_request` message. -/
structure VoteRequestMsg where
  candidate_id : String
  term : Nat
deriving DecidableEq

/-- Wire payload of a `heartbeat` message. -/
structure HeartbeatMsg where
  term : Nat
  leader_id : String
deriving DecidableEq

/-- The inbound message kinds dispatched by `BaseNode.handle_message`; any
other type tag falls through that dispatch untouched. -/
inductive Message where
  | heartbeat (m : HeartbeatMsg)
  | vote_request (m : VoteRequestMsg)
  | other (mtype : Option String)
deriving DecidableEq

/-- `RaftNode._handle_vote_request`: deny when the candidate's term is behind
the local term; otherwise grant exactly when no vote was cast or the same
candidate was already voted for, recording `voted_for` on a grant.  The `Bool`
is the handler's return value. -/
def handle_vote_request (s : RaftState) (m : VoteRequestMsg) :
    RaftState × Bool :=
  if m.term < s.current_term then (s, false)
  else if s.voted_for = none ∨ s.voted_for = some m.candidate_id then
    ({ s with voted_for := some m.candidate_id }, true)
  else (s, false)

/-- `BaseNode._handle_heartbeat`, not overridden by `RaftNode`: the body is
`return None`, so the state is untouched. -/
def handle_heartbeat (s : RaftState) (_m : HeartbeatMsg) : RaftState := s

/-- `BaseNode.handle_message`: route by the `type` tag; the vote handler's
return value is discarded, and unmatched tags fall through. -/
def handle_message (s : RaftState) (msg : Message) : RaftState :=
  match msg with
  | Message.heartbeat m => handle_heartbeat s m
  | Message.vote_request m => (handle_vote_request s m).1
  | Message.other _ => s

/-- The candidate-setup phase of `RaftNode._begin_election` (the four
assignments before the vote round): role becomes candidate, the term is
incremented, the self-vote is recorded and the known leader is cleared. -/
def become_candidate (s : RaftState) : RaftState :=
  { s with
    state := "candidate"
    current_term := s.current_term + 1
    voted_for := some s.node_id
    leader_id := none }

/-- The vote tally of `RaftNode._begin_election`: start from the self-vote,
then add one per peer whose `_request_vote` RPC returned `True`; a `False`
reply or a raised exception (`Except.error`, the transport failure) adds
nothing. -/
def count_votes (reply : String → Except Unit Bool) (peers : List String) :
    Nat :=
  peers.foldl
    (fun votes peer_id =>
      match reply peer_id with
      | Except.ok true => votes + 1
      | Except.ok false => votes
      | Except.error _ => votes)
    1

/-- `RaftNode._begin_election`: candidate setup, then the vote round over the
peers with outcome `reply`, then promotion to leader exactly when the tally
reaches `(len(peers) + 1) // 2 + 1`. -/
def begin_election (s : RaftState) (reply : String → Except Unit Bool) :
    RaftState :=
  let c := become_candidate s
  let votes := count_votes reply c.peers
  let majority := (c.peers.length + 1) / 2 + 1
  if votes ≥ majority then
    { c with state := "leader", leader_id := some c.node_id }
  else c

/-- One observable operation on a single node: starting an election (with the
peers' RPC outcomes) or receiving a message. -/
inductive NodeOp where
  | election (reply : String → Except Unit Bool)
  | recv (msg : Message)

/-- Apply one operation to the node state. -/
def apply_op (s : RaftState) (op : NodeOp) : RaftState :=
  match op with
  | NodeOp.election reply => begin_election s reply
  | NodeOp.recv msg => handle_message s msg

/-- The `_monitor_task` handle of the failure detector; only its `done` status
is observed by `start_monitor`. -/
structure MonitorTask where
  done : Bool
deriving DecidableEq

/-- The state of `FailureDetector`: the default suspicion timeout, the
`_last_seen` and `_timeouts` dicts, and the monitor-task handle.  The
registered `_on_suspect` callback is passed to `monitor_tick` explicitly so
that the state stays first-order. -/
structure FailureDetector where
  default_timeout : ℚ
  last_seen : List (String × ℚ)
  timeouts : List (String × ℚ)
  monitor_task : Option MonitorTask
deriving DecidableEq

/-- `FailureDetector.mark_heartbeat`: record `now` (the value of
`time.time()`) as the peer's last-seen timestamp. -/
def mark_heartbeat (fd : FailureDetector) (peer_id : String) (now : ℚ) :
    FailureDetector :=
  { fd with last_seen := dict_set fd.last_seen peer_id now }

/-- `FailureDetector.set_timeout`: per-peer timeout override. -/
def set_timeout (fd : FailureDetector) (peer_id : String) (timeout : ℚ) :
    FailureDetector :=
  { fd with timeouts := dict_set fd.timeouts peer_id timeout }

/-- `FailureDetector._timeout_for`: the per-peer override if set, else the
default. -/
def timeout_for (fd : FailureDetector) (peer_id : String) : ℚ :=
  (dict_get fd.timeouts peer_id).getD fd.default_timeout

/-- `FailureDetector.is_suspected` at wall-clock time `now`: a never-seen
peer is suspected; otherwise suspected exactly when the elapsed time since
the last heartbeat strictly exceeds the effective timeout. -/
def is_suspected (fd : FailureDetector) (peer_id : String) (now : ℚ) : Bool :=
  match dict_get fd.last_seen peer_id with
  | none => true
  | some last => decide (now - last > timeout_for fd peer_id)

/-- One pass of the inner loop of `start_monitor._run` over a list of peer
ids, returning the peers on which the callback was invoked, in order.  A
registered callback is attempted for every suspected peer; its outcome
(normal return `Except.ok` or a raised exception `Except.error`) is swallowed
by the `try/except` and the loop continues either way. -/
def tick_go (fd : FailureDetector) (now : ℚ)
    (cb : Option (String → Except Unit Unit)) :
    List String → List String
  | [] => []
  | peer :: rest =>
    if is_suspected fd peer now then
      match cb with
      | some f =>
        match f peer with
        | Except.ok _ => peer :: tick_go fd now cb rest
        | Except.error _ => peer :: tick_go fd now cb rest
      | none => tick_go fd now cb rest
    else tick_go fd now cb rest

/-- One polling tick of the monitor loop: scan `list(self._last_seen.keys())`
and notify the callback on every suspected peer among them. -/
def monitor_tick (fd : FailureDetector) (now : ℚ)
    (cb : Option (String → Except Unit Unit)) : List String :=
  tick_go fd now cb (fd.last_seen.map Prod.fst)

/-- `FailureDetector.start_monitor`: return immediately when a monitor task
exists and is not done, else install a fresh (not-done) task.  The `Bool`
records whether a new polling task was created. -/
def start_monitor (fd : FailureDetector) : FailureDetector × Bool :=
  match fd.monitor_task with
  | some t =>
    if t.done = false then (fd, false)
    else ({ fd with monitor_task := some ⟨false⟩ }, true)
  | none => ({ fd with monitor_task := some ⟨false⟩ }, true)

/-- The reply written back by `MessageHandler._handle_connection`: either the
error-shaped dict `{"status": ..., "message": ...}` built for an unknown
message type, or the payload produced by the registered handler. -/
inductive WireReply (α : Type) where
  | err (status msg : String)
  | ok (payload : α)
deriving DecidableEq

/-- The dispatch logic of `MessageHandler._handle_connection` on a decoded
message, over an abstract handler state `σ` and handler-reply type `α`: read
the `type` tag (`none` models a missing tag), look it up in the `_handlers`
registry, and either run the handler or reply with
`{"status": "error", "message": "unknown type"}` leaving the state alone. -/
def handle_connection {σ α : Type} (handlers : List (String × (σ → σ × α)))
    (st : σ) (mtype : Option String) : σ × WireReply α :=
  match mtype.bind (fun t => dict_get handlers t) with
  | none => (st, WireReply.err "error" "unknown type")
  | some h =>
    let r := h st
    (r.1, WireReply.ok r.2)

/-! ### Helper lemmas -/

/-- Whether one peer's RPC outcome counts as a granted vote: only a normal
`True` reply does; a `False` reply and a transport failure do not. -/
def granted : Except Unit Bool → Bool
  | Except.ok true => true
  | Except.ok false => false
  | Except.error _ => false

lemma vote_step_eq (e : Except Unit Bool) (n : Nat) :
    (match e with
      | Except.ok true => n + 1
      | Except.ok false => n
      | Except.error _ => n)
    = if granted e then n + 1 else n := by
  cases e with
  | ok b => cases b <;> rfl
  | error u => rfl

lemma count_votes_go (reply : String → Except Unit Bool) :
    ∀ (l : List String) (n : Nat),
      l.foldl
        (fun votes peer_id =>
          match reply peer_id with
          | Except.ok true => votes + 1
          | Except.ok false => votes
          | Except.error _ => votes)
        n
      = n + (l.filter fun q => granted (reply q)).length
  | [], n => by simp
  | p :: rest, n => by
    rw [List.foldl_cons, vote_step_eq (reply p) n, List.filter_cons]
    by_cases h : granted (reply p) = true
    · simp only [h, if_true, List.length_cons, count_votes_go reply rest (n + 1)]
      omega
    · simp only [h, if_false, Bool.false_eq_true, count_votes_go reply rest n]

/-- The vote tally is the self-vote plus the number of peers whose RPC
outcome was a granted vote. -/
lemma count_votes_eq (reply : String → Except Unit Bool) (l : List String) :
    count_votes reply l = 1 + (l.filter fun q => granted (reply q)).length :=
  count_votes_go reply l 1

/-- `_begin_election` unfolded: candidate setup, then promotion exactly on a
quorum tally. -/
lemma begin_election_eq (s : RaftState) (reply : String → Except Unit Bool) :
    begin_election s reply
    = if count_votes reply s.peers ≥ (s.peers.length + 1) / 2 + 1 then
        { become_candidate s with
          state := "leader", leader_id := some s.node_id }
      else become_candidate s := rfl

lemma current_term_begin_election (s : RaftState)
    (reply : String → Except Unit Bool) :
    (begin_election s reply).current_term = s.current_term + 1 := by
  rw [begin_election_eq]
  split <;> rfl

/-- The vote handler either leaves the state alone or only records the
candidate in `voted_for`. -/
lemma handle_vote_request_fst (s : RaftState) (m : VoteRequestMsg) :
    (handle_vote_request s m).1 = s
    ∨ (handle_vote_request s m).1 = { s with voted_for := some m.candidate_id } := by
  unfold handle_vote_request
  split
  · exact Or.inl rfl
  · split
    · exact Or.inr rfl
    · exact Or.inl rfl

lemma dict_get_set_self {β : Type} (m : List (String × β)) (k : String)
    (v : β) : dict_get (dict_set m k v) k = some v := by
  induction m with
  | nil => simp [dict_set, dict_get]
  | cons kv rest ih =>
    obtain ⟨k1, v1⟩ := kv
    by_cases h : k = k1
    · simp [dict_set, dict_get, h]
    · simp [dict_set, dict_get, h, ih]

/-- With a registered callback, one tick pass notifies exactly the suspected
peers among the scanned ones, whatever the callback outcomes are. -/
lemma tick_go_eq (fd : FailureDetector) (now : ℚ)
    (f : String → Except Unit Unit) (l : List String) :
    tick_go fd now (some f) l = l.filter fun p => is_suspected fd p now := by
  induction l with
  | nil => rfl
  | cons peer rest ih =>
    cases hs : is_suspected fd peer now with
    | false => simp [tick_go, hs, ih]
    | true =>
      cases hf : f peer with
      | ok u => simp [tick_go, hs, hf, ih]
      | error e => simp [tick_go, hs, hf, ih]

/-! ### Claim C1 -/

/-- A leader holding term 0 that already voted for node x; used to refute the
`observeTerm` rule of claim C1. -/
def stale_leader_state : RaftState :=
  ⟨"n1", ["n2", "n3"], "leader", 0, some "x", some "n1", 1, 0⟩

/-- C1, counterexample: a vote request carrying term 5, strictly above the
local term 0, leaves the node completely unchanged — the remote term is not
adopted, votedFor is not reset to none, and the role stays Leader.  The
claimed `observeTerm` rule is not implemented by the message handlers. -/
theorem observe_term_missing_cex :
    5 > stale_leader_state.current_term
    ∧ handle_message stale_leader_state (Message.vote_request ⟨"c", 5⟩)
      = stale_leader_state
    ∧ stale_leader_state.state = "leader"
    ∧ stale_leader_state.voted_for = some "x" := by
  exact ⟨by decide, rfl, rfl, rfl⟩

/-- C1, amended: processing an inbound RPC carrying a term strictly greater
than the local term never adopts the remote term, never resets votedFor to
none, and never changes the role — term, role and leaderId are unchanged, a
heartbeat changes nothing at all, and a vote request can at most record the
candidate in votedFor. -/
theorem higher_term_message_keeps_state (s : RaftState) (vm : VoteRequestMsg)
    (hm : HeartbeatMsg) :
    (vm.term > s.current_term →
      (handle_message s (Message.vote_request vm)).current_term = s.current_term
      ∧ (handle_message s (Message.vote_request vm)).state = s.state
      ∧ (handle_message s (Message.vote_request vm)).leader_id = s.leader_id
      ∧ ((handle_message s (Message.vote_request vm)).voted_for = s.voted_for
         ∨ (handle_message s (Message.vote_request vm)).voted_for
           = some vm.candidate_id))
    ∧ (hm.term > s.current_term → handle_message s (Message.heartbeat hm) = s) := by
  constructor
  · intro _
    rw [show handle_message s (Message.vote_request vm)
          = (handle_vote_request s vm).1 from rfl]
    rcases handle_vote_request_fst s vm with h | h
    · rw [h]
      exact ⟨rfl, rfl, rfl, Or.inl rfl⟩
    · rw [h]
      exact ⟨rfl, rfl, rfl, Or.inr rfl⟩
  · intro _
    rfl

/-- Witness for C1's amended theorem at a concrete stale leader. -/
theorem higher_term_message_keeps_state_witness :
    (handle_message stale_leader_state (Message.vote_request ⟨"c", 5⟩)).current_term
      = stale_leader_state.current_term
    ∧ handle_message stale_leader_state (Message.heartbeat ⟨7, "L"⟩)
      = stale_leader_state :=
  ⟨((higher_term_message_keeps_state stale_leader_state ⟨"c", 5⟩ ⟨7, "L"⟩).1
      (by decide)).1,
   (higher_term_message_keeps_state stale_leader_state ⟨"c", 5⟩ ⟨7, "L"⟩).2
      (by decide)⟩

/-! ### Claim C2 -/

lemma apply_op_term_le (s : RaftState) (op : NodeOp) :
    s.current_term ≤ (apply_op s op).current_term := by
  cases op with
  | election reply =>
    rw [show apply_op s (NodeOp.election reply) = begin_election s reply from rfl,
      current_term_begin_election]
    exact Nat.le_succ _
  | recv msg =>
    cases msg with
    | heartbeat m => exact Nat.le_refl _
    | vote_request m =>
      rcases handle_vote_request_fst s m with h | h
      · rw [show apply_op s (NodeOp.recv (Message.vote_request m))
            = (handle_vote_request s m).1 from rfl, h]
      · rw [show apply_op s (NodeOp.recv (Message.vote_request m))
            = (handle_vote_request s m).1 from rfl, h]
    | other t => exact Nat.le_refl _

lemma foldl_apply_op_term_le :
    ∀ (ops : List NodeOp) (s : RaftState),
      s.current_term ≤ (ops.foldl apply_op s).current_term
  | [], _ => Nat.le_refl _
  | op :: rest, s =>
    le_trans (apply_op_term_le s op)
      (foldl_apply_op_term_le rest (apply_op s op))

/-- C2: a node's current term never decreases — neither across a single
operation (an election begun, a vote request handled, a heartbeat handled)
nor across any sequence of such operations. -/
theorem term_monotone (s : RaftState) (ops : List NodeOp) :
    (∀ op : NodeOp, s.current_term ≤ (apply_op s op).current_term)
    ∧ s.current_term ≤ (ops.foldl apply_op s).current_term :=
  ⟨fun op => apply_op_term_le s op, foldl_apply_op_term_le ops s⟩

/-! ### Claim C3 -/

/-- A follower at term 2 that has not voted yet, with a nonzero
last-heartbeat timestamp; used for the C3 counterexample and witness. -/
def open_follower : RaftState :=
  ⟨"n1", ["n2"], "follower", 2, none, none, 1, 3⟩

/-- C3, counterexample: granting a vote changes only `voted_for` — in
particular the election timer (`last_heartbeat_ts`) is not reset and no term
is recorded, contrary to the claim that a grant resets the election timer
(and that a denial's reply carries the local term; the handler only returns a
boolean). -/
theorem vote_grant_no_timer_reset_cex :
    handle_vote_request open_follower ⟨"c", 2⟩
      = ({ open_follower with voted_for := some "c" }, true)
    ∧ ({ open_follower with voted_for := some "c" } : RaftState).last_heartbeat_ts
      = open_follower.last_heartbeat_ts
    ∧ ({ open_follower with voted_for := some "c" } : RaftState).current_term
      = open_follower.current_term := by
  exact ⟨rfl, rfl, rfl⟩

/-- C3, amended: a vote request with a stale term is denied with reply
`false`; otherwise the vote is granted exactly when votedFor is none or
already the candidate, a grant changes nothing but `voted_for`, and a denial
changes nothing — the local term and the election timer are untouched either
way, and the reply is only the boolean grant flag. -/
theorem vote_request_semantics (s : RaftState) (m : VoteRequestMsg) :
    (m.term < s.current_term → handle_vote_request s m = (s, false))
    ∧ (¬ m.term < s.current_term →
        ((s.voted_for = none ∨ s.voted_for = some m.candidate_id) →
          handle_vote_request s m
            = ({ s with voted_for := some m.candidate_id }, true))
        ∧ (¬(s.voted_for = none ∨ s.voted_for = some m.candidate_id) →
          handle_vote_request s m = (s, false))) := by
  unfold handle_vote_request
  constructor
  · intro h
    rw [if_pos h]
  · intro h
    rw [if_neg h]
    constructor
    · intro hv
      rw [if_pos hv]
    · intro hv
      rw [if_neg hv]

/-- Witness for C3's amended theorem: a concrete granted vote. -/
theorem vote_request_semantics_witness :
    handle_vote_request open_follower ⟨"c", 2⟩
      = ({ open_follower with voted_for := some "c" }, true) :=
  ((vote_request_semantics open_follower ⟨"c", 2⟩).2 (by decide)).1 (Or.inl rfl)

/-! ### Claim C4 -/

/-- C4: the candidate ends the round as leader exactly when the tally — the
automatic self-vote plus the granted replies — reaches
`floor(N/2) + 1` for `N = peers + self`; and turning one peer's reply from a
transport failure into an explicit denial never changes the tally, i.e. a
failure counts as a vote not granted while the rest of the round proceeds. -/
theorem election_quorum (s : RaftState) (reply : String → Except Unit Bool)
    (p : String) :
    ((begin_election s reply).state = "leader"
      ↔ count_votes reply s.peers ≥ (s.peers.length + 1) / 2 + 1)
    ∧ count_votes (fun q => if q = p then Except.error () else reply q) s.peers
      = count_votes (fun q => if q = p then Except.ok false else reply q) s.peers := by
  constructor
  · rw [begin_election_eq]
    by_cases h : count_votes reply s.peers ≥ (s.peers.length + 1) / 2 + 1
    · rw [if_pos h]
      exact iff_of_true rfl h
    · rw [if_neg h,
        show (become_candidate s).state = "candidate" from rfl]
      exact iff_of_false (by decide) h
  · rw [count_votes_eq, count_votes_eq]
    have hf : (s.peers.filter fun q =>
          granted (if q = p then Except.error () else reply q))
        = s.peers.filter fun q =>
          granted (if q = p then Except.ok false else reply q) := by
      apply List.filter_congr
      intro q _
      by_cases h : q = p
      · rw [if_pos h, if_pos h]
        rfl
      · rw [if_neg h, if_neg h]
    rw [hf]

/-! ### Claim C5 -/

/-- C5: becoming a candidate increments the term by exactly one, votes for
self, clears the known leader and sets the candidate role; and the whole
election step changes the term by exactly that one increment, whatever the
vote outcomes are. -/
theorem begin_election_contract (s : RaftState)
    (reply : String → Except Unit Bool) :
    (become_candidate s).current_term = s.current_term + 1
    ∧ (become_candidate s).voted_for = some s.node_id
    ∧ (become_candidate s).leader_id = none
    ∧ (become_candidate s).state = "candidate"
    ∧ (begin_election s reply).current_term = s.current_term + 1 :=
  ⟨rfl, rfl, rfl, rfl, current_term_begin_election s reply⟩

/-! ### Claim C6 -/

/-- A follower at term 0 that knows no leader; used to refute claim C6. -/
def fresh_follower : RaftState :=
  ⟨"n1", ["n2"], "follower", 0, none, none, 1, 0⟩

/-- C6, counterexample: a heartbeat carrying term 3 ≥ the local term 0 leaves
the node unchanged — leaderId is not set to the sender, the election-timer
timestamp keeps its old value, and the higher term is not adopted. -/
theorem heartbeat_noop_cex :
    3 > fresh_follower.current_term
    ∧ handle_message fresh_follower (Message.heartbeat ⟨3, "L"⟩) = fresh_follower
    ∧ fresh_follower.leader_id ≠ some "L" := by
  exact ⟨by decide, rfl, by decide⟩

/-- C6, amended: processing a heartbeat leaves the node state entirely
unchanged — the handler body is a bare return, so no leaderId, timer or term
update happens for any heartbeat. -/
theorem heartbeat_is_noop (s : RaftState) (m : HeartbeatMsg) :
    handle_message s (Message.heartbeat m) = s := rfl

/-! ### Claim C7 -/

/-- C7, counterexample: with a negative per-peer timeout override, a peer is
reported suspected at the very instant of its own heartbeat mark — the claim
that `isSuspected(p)` is false immediately after `markHeartbeat(p)` fails for
that configuration. -/
theorem negative_timeout_cex :
    timeout_for (set_timeout ⟨1, [], [], none⟩ "p" (-1)) "p" = -1
    ∧ is_suspected
        (mark_heartbeat (set_timeout ⟨1, [], [], none⟩ "p" (-1)) "p" 0) "p" 0
      = true := by
  constructor
  · norm_num [set_timeout, timeout_for, dict_set, dict_get]
  · norm_num [is_suspected, mark_heartbeat, set_timeout, timeout_for,
      dict_set, dict_get]

/-- C7, amended: a never-marked peer is always suspected; a marked peer is
suspected exactly when the elapsed time since its last mark strictly exceeds
its effective timeout (per-peer override if set, else the default); and
immediately after `markHeartbeat(p)` the peer is not suspected provided its
effective timeout is nonnegative. -/
theorem is_suspected_spec (fd : FailureDetector) (p : String)
    (now last : ℚ) :
    (dict_get fd.last_seen p = none → is_suspected fd p now = true)
    ∧ (dict_get fd.last_seen p = some last →
        (is_suspected fd p now = true ↔ now - last > timeout_for fd p))
    ∧ (0 ≤ timeout_for fd p →
        is_suspected (mark_heartbeat fd p now) p now = false) := by
  refine ⟨?_, ?_, ?_⟩
  · intro h
    unfold is_suspected
    rw [h]
  · intro h
    unfold is_suspected
    rw [h]
    show decide (now - last > timeout_for fd p) = true
      ↔ now - last > timeout_for fd p
    exact decide_eq_true_iff
  · intro h
    have e : dict_get (mark_heartbeat fd p now).last_seen p = some now :=
      dict_get_set_self fd.last_seen p now
    unfold is_suspected
    rw [e]
    show decide (now - now > timeout_for fd p) = false
    apply decide_eq_false
    rw [sub_self]
    exact not_lt.mpr h

/-- Witness for C7's amended theorem: all three clauses at concrete
detectors. -/
theorem is_suspected_spec_witness :
    is_suspected ⟨1, [], [], none⟩ "q" 3 = true
    ∧ (is_suspected ⟨1, [("q", 0)], [], none⟩ "q" 3 = true
        ↔ (3 : ℚ) - 0 > timeout_for ⟨1, [("q", 0)], [], none⟩ "q")
    ∧ is_suspected (mark_heartbeat ⟨1, [], [], none⟩ "q" 3) "q" 3 = false :=
  ⟨(is_suspected_spec ⟨1, [], [], none⟩ "q" 3 0).1 rfl,
   (is_suspected_spec ⟨1, [("q", 0)], [], none⟩ "q" 3 0).2.1
     (by norm_num [dict_get]),
   (is_suspected_spec ⟨1, [], [], none⟩ "q" 3 0).2.2
     (by norm_num [timeout_for, dict_get])⟩

/-! ### Claim C8 -/

/-- C8, counterexample: a peer with a configured timeout that was never heard
from is suspected, yet a monitor tick invokes the callback on nobody — the
loop scans only the `_last_seen` keys, so never-heard peers are skipped,
contrary to the claim that they are included. -/
theorem unseen_peer_not_notified_cex :
    is_suspected ⟨1, [], [("p", 1)], none⟩ "p" 9 = true
    ∧ monitor_tick ⟨1, [], [("p", 1)], none⟩ 9 (some fun _ => Except.ok ())
      = [] := by
  exact ⟨rfl, rfl⟩

/-- C8, amended: on each monitor tick with a registered callback, the
callback is invoked exactly once per currently suspected peer among those
with a recorded heartbeat (never-heard peers are not scanned), and the set of
peers notified is independent of the callbacks' outcomes — a raising callback
is caught and never prevents the remaining peers' evaluation. -/
theorem monitor_tick_spec (fd : FailureDetector) (now : ℚ)
    (f g : String → Except Unit Unit) :
    monitor_tick fd now (some f)
      = (fd.last_seen.map Prod.fst).filter (fun p => is_suspected fd p now)
    ∧ monitor_tick fd now (some f) = monitor_tick fd now (some g) := by
  constructor
  · exact tick_go_eq fd now f _
  · unfold monitor_tick
    rw [tick_go_eq, tick_go_eq]

/-! ### Claim C9 -/

/-- C9: an inbound message whose type tag has no registered handler (or no
tag at all) is answered with the error-shaped reply
`status = "error", message = "unknown type"`, and the handler state is
returned unchanged. -/
theorem unknown_type_error_reply {σ α : Type}
    (handlers : List (String × (σ → σ × α))) (st : σ) (mtype : Option String)
    (h : mtype.bind (fun t => dict_get handlers t) = none) :
    handle_connection handlers st mtype
      = (st, WireReply.err "error" "unknown type") := by
  unfold handle_connection
  rw [h]

/-- Witness for C9 at a concrete registry miss. -/
theorem unknown_type_error_reply_witness :
    handle_connection ([] : List (String × (Nat → Nat × Nat))) 7 (some "hb")
      = (7, WireReply.err "error" "unknown type") :=
  unknown_type_error_reply [] 7 (some "hb") rfl

/-! ### Claim C10 -/

/-- C10: calling `start_monitor` while a monitor task exists and is not done
returns without replacing the task or starting a new polling loop. -/
theorem start_monitor_idempotent (fd : FailureDetector) (t : MonitorTask)
    (h1 : fd.monitor_task = some t) (h2 : t.done = false) :
    start_monitor fd = (fd, false) := by
  unfold start_monitor
  rw [h1]
  show (if t.done = false then (fd, false)
    else ({ fd with monitor_task := some ⟨false⟩ }, true)) = (fd, false)
  rw [if_pos h2]

/-- Witness for C10 at a concrete running monitor. -/
theorem start_monitor_idempotent_witness :
    start_monitor ⟨1, [], [], some ⟨false⟩⟩
      = ((⟨1, [], [], some ⟨false⟩⟩ : FailureDetector), false) :=
  start_monitor_idempotent ⟨1, [], [], some ⟨false⟩⟩ ⟨false⟩ rfl rfl

end DistSync
